import Mathlib

/-!
# Verification of `rio_tiler.reader` (low-level reader)

Shallow embedding of `src/rio_tiler/reader.py` — the read/warp/mask
orchestration logic of rio-tiler — together with models of the external
raster-access and coordinate-transform collaborators it consumes.

Conventions of the embedding:
* Geographic coordinates, pixel values and scale/offset factors are `ℚ`
  (Python floats; the claims under verification only involve values on
  which float arithmetic is exact).
* Python `None`-able arguments are `Option _`; Python truthiness of an
  optional integer (`if height and width`) is `optTruthy`.
* Python exceptions become an `Except ReaderError _` result; an unguarded
  `ZeroDivisionError` is the dedicated constructor `ReaderError.zeroDivision`.
* numpy arrays are nested lists: band-interleaved data is
  `List (List (List ℚ))` (bands × rows × cols), masks are `List (List ℚ)`.
-/

namespace RioTiler

/-- Color interpretation tag of a band.  The reader only ever distinguishes
the alpha tag from everything else. -/
inductive CI where
  | alpha
  | nonalpha
  deriving DecidableEq, Repr

/-- Bounding box `(left, bottom, right, top)` in some CRS. -/
structure BBox where
  left : ℚ
  bottom : ℚ
  right : ℚ
  top : ℚ
  deriving DecidableEq, Repr

/-- 6-parameter 2D affine transform, as in the `affine` package:
`(a b c; d e f)` acting on column vectors `(x, y, 1)`. -/
structure Affine where
  a : ℚ
  b : ℚ
  c : ℚ
  d : ℚ
  e : ℚ
  f : ℚ
  deriving DecidableEq, Repr

/-- Composition of affine transforms (`affine.Affine.__mul__`). -/
def Affine.mul (m n : Affine) : Affine where
  a := m.a * n.a + m.b * n.d
  b := m.a * n.b + m.b * n.e
  c := m.a * n.c + m.b * n.f + m.c
  d := m.d * n.a + m.e * n.d
  e := m.d * n.b + m.e * n.e
  f := m.d * n.c + m.e * n.f + m.f

instance : Mul Affine := ⟨Affine.mul⟩

/-- `affine.Affine.translation(tx, ty)`. -/
def Affine.translation (tx ty : ℚ) : Affine := ⟨1, 0, tx, 0, 1, ty⟩

/-- `rasterio.windows.Window(col_off, row_off, width, height)`, restricted to
the integer windows the reader constructs. -/
structure Window where
  col_off : Nat
  row_off : Nat
  width : Nat
  height : Nat
  deriving DecidableEq, Repr

/-- Python truthiness of an optional integer: `None` and `0` are falsy. -/
def optTruthy (o : Option Nat) : Bool :=
  o.getD 0 ≠ 0

/-- `x or y` for an optional integer `x` and integer `y` (Python `or`
returns `y` when `x` is `None` or `0`). -/
def pyOr (o : Option Nat) (y : Nat) : Nat :=
  if optTruthy o then o.getD 0 else y

/-- Caller-supplied raw warp overrides (`vrt_options` dict): every field is
`some v` when the corresponding key is present.  Only the keys the reader
itself ever touches are modelled. -/
structure VrtOptions where
  add_alpha : Option Bool := none
  nodata : Option ℚ := none
  src_nodata : Option ℚ := none
  resampling : Option Nat := none
  crs : Option Nat := none
  transform : Option Affine := none
  width : Option Nat := none
  height : Option Nat := none
  deriving DecidableEq, Repr

/-- The warp-parameter dict passed to `WarpedVRT` after the reader's policy
has run (`vrt_params` in the source). -/
structure VrtParams where
  add_alpha : Bool
  nodata : Option ℚ := none
  src_nodata : Option ℚ := none
  resampling : Nat := 0
  crs : Option Nat := none
  transform : Option Affine := none
  width : Option Nat := none
  height : Option Nat := none
  deriving DecidableEq, Repr

/-- `vrt_params.update(vrt_options)` — dict update, overrides win per key. -/
def VrtParams.merge (p : VrtParams) (o : VrtOptions) : VrtParams where
  add_alpha := o.add_alpha.getD p.add_alpha
  nodata := match o.nodata with | some v => some v | none => p.nodata
  src_nodata := match o.src_nodata with | some v => some v | none => p.src_nodata
  resampling := o.resampling.getD p.resampling
  crs := match o.crs with | some v => some v | none => p.crs
  transform := match o.transform with | some v => some v | none => p.transform
  width := match o.width with | some v => some v | none => p.width
  height := match o.height with | some v => some v | none => p.height

/-- The Virtual View Builder policy, shared verbatim by `read`
(reader.py lines 61–67 and 80–81) and `point` (lines 319–331):

1. default `add_alpha=True`, no nodata;
2. if an effective nodata exists (argument override, else the dataset's),
   set `nodata`/`src_nodata` and `add_alpha=False`;
3. if the dataset has a true alpha band, set `add_alpha=False`;
4. merge caller-supplied raw `vrt_options` last (dict update). -/
def buildVrtParams (ds_nodata nodata_arg : Option ℚ) (hasAlpha : Bool)
    (vrt_options : Option VrtOptions) (resampling_method : Nat := 0) : VrtParams :=
  let p : VrtParams := { add_alpha := true, resampling := resampling_method }
  let nd := match nodata_arg with | some v => some v | none => ds_nodata
  let p := match nd with
    | some v => { p with nodata := some v, add_alpha := false, src_nodata := some v }
    | none => p
  let p := if hasAlpha then { p with add_alpha := false } else p
  match vrt_options with
  | some o => p.merge o
  | none => p

/-- Geo-referenced raster dataset handle, as queried by the reader
(spec §3 RasterDataset / §6 collaborator interface).  `colorinterp` has one
entry per band; band indexes are 1-based. -/
structure Dataset where
  crs : Nat
  bounds : BBox
  height : Nat
  width : Nat
  nodata : Option ℚ := none
  colorinterp : List CI
  scales : List ℚ
  offsets : List ℚ
  deriving Repr

/-- `src_dst.indexes`: 1-based indexes of all bands (rasterio property of the
raster-access collaborator). -/
def Dataset.bandIndexes (ds : Dataset) : List Nat :=
  List.range' 1 ds.colorinterp.length

/-- Modelled from the spec: `rio_tiler.utils.has_alpha_band` (imported by
reader.py but not under `src/`) — whether the dataset already exposes a true
alpha band (spec §4.1 step 3). -/
def has_alpha_band (ds : Dataset) : Bool :=
  ds.colorinterp.contains CI.alpha

/-- Modelled from the spec: `rio_tiler.utils.non_alpha_indexes` (imported by
reader.py but not under `src/`) — the 1-based indexes of all non-alpha bands
(spec §4.4 step 1). -/
def non_alpha_indexes (ds : Dataset) : List Nat :=
  (ds.bandIndexes.zip ds.colorinterp).filterMap
    (fun p => if p.2 = CI.alpha then none else some p.1)

/-- Band-interleaved pixel data: bands × rows × cols. -/
abbrev DataArr := List (List (List ℚ))

/-- Validity mask: rows × cols. -/
abbrev MaskArr := List (List ℚ)

/-- Materialize a 2-D array of the given shape from a content oracle. -/
def mkArr2 (rows cols : Nat) (f : Nat → Nat → ℚ) : MaskArr :=
  (List.range rows).map (fun r => (List.range cols).map (fun c => f r c))

/-- Materialize a 3-D array of the given shape from a content oracle. -/
def mkArr3 (bands rows cols : Nat) (f : Nat → Nat → Nat → ℚ) : DataArr :=
  (List.range bands).map (fun b => mkArr2 rows cols (f b))

/-- Every band of `d` is a `rows × cols` matrix. -/
def hasShape (d : DataArr) (rows cols : Nat) : Prop :=
  ∀ band ∈ d, band.length = rows ∧ ∀ r ∈ band, r.length = cols

/-- `m` is a `rows × cols` matrix. -/
def hasShape2 (m : MaskArr) (rows cols : Nat) : Prop :=
  m.length = rows ∧ ∀ r ∈ m, r.length = cols

/-- External collaborators consumed by the reader (spec §6), plus the two
`rio_tiler.utils` geometry helpers that reader.py imports but whose code is
not under `src/` (`get_vrt_transform`, spec §4.2, and
`_requested_tile_aligned_with_internal_tile`, spec §4.3); all are opaque to
the orchestration logic under verification, so they are oracle fields.
Pixel contents delivered by the warped view are given by the oracles
`pix` (per requested indexes/window) and `maskpix`. -/
structure Collab where
  /-- `rasterio.warp.transform_bounds src_crs dst_crs bounds` (densification
  count abstracted away). -/
  transform_bounds : Nat → Nat → BBox → BBox
  /-- `rio_tiler.utils.get_vrt_transform src_dst bounds height width dst_crs`
  ↦ `(vrt_transform, vrt_width, vrt_height)` (spec §4.2, pure geometry). -/
  get_vrt_transform : Dataset → BBox → Option Nat → Option Nat → Nat → Affine × Nat × Nat
  /-- `rio_tiler.utils._requested_tile_aligned_with_internal_tile
  src_dst bounds height width dst_crs` (spec §4.3 alignment check). -/
  aligned : Dataset → BBox → Nat → Nat → Nat → Bool
  /-- Pixel contents returned by the warped view's windowed read. -/
  pix : List Nat → Option Window → Nat → Nat → Nat → ℚ
  /-- Contents of the warped view's dataset-level validity mask. -/
  maskpix : Option Window → Nat → Nat → ℚ
  /-- `rasterio.warp.transform coord_crs dst_crs [x] [y]`. -/
  transform_coords : Nat → Nat → ℚ × ℚ → ℚ × ℚ
  /-- `vrt.sample [(x, y)] indexes masked` ↦ (`values.data`, `values.mask`);
  the boolean flags follow the numpy masked-array convention: `true` means
  the sample is masked out (invalid). -/
  sample : (ℚ × ℚ) → List Nat → Bool → List ℚ × List Bool

/-- The warped virtual view produced by the raster-access collaborator for
given warp parameters (spec §6): a synthesized alpha band is appended when
`add_alpha` is set; scale/offset metadata is inherited from the source
(the synthetic alpha band carries the identity pair); the grid size is the
override when supplied, else the source's. -/
def openVrt (ds : Dataset) (p : VrtParams) : Dataset where
  crs := p.crs.getD ds.crs
  bounds := ds.bounds
  height := p.height.getD ds.height
  width := p.width.getD ds.width
  nodata := p.nodata
  colorinterp := if p.add_alpha then ds.colorinterp ++ [CI.alpha] else ds.colorinterp
  scales := if p.add_alpha then ds.scales ++ [1] else ds.scales
  offsets := if p.add_alpha then ds.offsets ++ [0] else ds.offsets

/-- Native row count of a windowed read: the window's height when a window
is given, else the full view's height. -/
def nativeRows (vrt : Dataset) (window : Option Window) : Nat :=
  match window with
  | some win => win.height
  | none => vrt.height

/-- Native column count of a windowed read. -/
def nativeCols (vrt : Dataset) (window : Option Window) : Nat :=
  match window with
  | some win => win.width
  | none => vrt.width

/-- Collaborator's windowed read (spec §6): the returned array has shape
`out_shape` when one is supplied, else the native shape of the requested
window (the full view when no window is given). -/
def vrtRead (C : Collab) (vrt : Dataset) (indexes : List Nat)
    (window : Option Window) (out_shape : Option (Nat × Nat × Nat)) : DataArr :=
  match out_shape with
  | some (b, h, w) => mkArr3 b h w (C.pix indexes window)
  | none =>
    mkArr3 indexes.length (nativeRows vrt window) (nativeCols vrt window)
      (C.pix indexes window)

/-- Collaborator's dataset-level validity mask (spec §6), shaped to
`out_shape` when supplied, else to the window / full view. -/
def vrtDatasetMask (C : Collab) (vrt : Dataset) (window : Option Window)
    (out_shape : Option (Nat × Nat)) : MaskArr :=
  match out_shape with
  | some (h, w) => mkArr2 h w (C.maskpix window)
  | none => mkArr2 (nativeRows vrt window) (nativeCols vrt window) (C.maskpix window)

/-- reader.py line 111: `numpy.where(mask != 0, uint8 255, uint8 0)`. -/
def binarizeMask (m : MaskArr) : MaskArr :=
  m.map (fun row => row.map (fun v => if v ≠ 0 then (255 : ℚ) else 0))

/-- reader.py lines 114–116 (and 341–347): cast to floating point (exact in
this `ℚ` model) then multiply by `scale` and add `offset` in place. -/
def unscaleArr (scale offset : ℚ) (d : DataArr) : DataArr :=
  d.map (fun band => band.map (fun row => row.map (fun v => v * scale + offset)))

/-- numpy `astype("uint8")` on a mask band: truncate and wrap to 8 bits. -/
def astypeU8 (m : MaskArr) : MaskArr :=
  m.map (fun row => row.map (fun v => ((⌊v⌋ % 256 : ℤ) : ℚ)))

/-- reader.py line 76: `(len(indexes), height, width) if height and width
else None`. -/
def outShape (nIndexes : Nat) (height width : Option Nat) : Option (Nat × Nat × Nat) :=
  if optTruthy height && optTruthy width then
    some (nIndexes, height.getD 0, width.getD 0)
  else none

/-- reader.py lines 83–108: the windowed read inside the `WarpedVRT` scope.
If the view carries an alpha band, read it as one extra trailing index and
split the last band out as the mask; otherwise read the requested bands and
obtain the view's own validity mask separately. -/
def readRaw (C : Collab) (vrt : Dataset) (indexes : List Nat)
    (window : Option Window) (height width : Option Nat) : DataArr × MaskArr :=
  if vrt.colorinterp.contains CI.alpha then
    let idx := vrt.colorinterp.indexOf CI.alpha + 1
    let indexes := indexes ++ [idx]
    let shape := outShape indexes.length height width
    let data := vrtRead C vrt indexes window shape
    (data.dropLast, astypeU8 ((data.getLast?).getD []))
  else
    let data := vrtRead C vrt indexes window (outShape indexes.length height width)
    let mask := vrtDatasetMask C vrt window
      (if optTruthy height && optTruthy width then
        some (height.getD 0, width.getD 0) else none)
    (data, mask)

/-- `rio_tiler.reader.read` (reader.py lines 24–121), the low-level Read
Pipeline: resolve band indexes, build the virtual view via the
`buildVrtParams` policy, perform the windowed read, then optionally
binarize the mask, unscale the data with the view's first band's
scale/offset pair, and hand the pair to the post-process hook. -/
def read (C : Collab) (src_dst : Dataset)
    (height width : Option Nat := none)
    (indexes : Option (List Nat) := none)
    (window : Option Window := none)
    (force_binary_mask : Bool := true)
    (nodata : Option ℚ := none)
    (unscale : Bool := false)
    (vrt_options : Option VrtOptions := none)
    (post_process : Option (DataArr → MaskArr → DataArr × MaskArr) := none)
    (resampling_method : Nat := 0) :
    DataArr × MaskArr :=
  let vrt_params := buildVrtParams src_dst.nodata nodata (has_alpha_band src_dst)
    vrt_options resampling_method
  let indexes := match indexes with
    | some l => l
    | none => non_alpha_indexes src_dst
  let vrt := openVrt src_dst vrt_params
  let dm := readRaw C vrt indexes window height width
  let mask := if force_binary_mask then binarizeMask dm.2 else dm.2
  let data := if unscale then
      unscaleArr (vrt.scales.headD 1) (vrt.offsets.headD 0) dm.1
    else dm.1
  match post_process with
  | some f => f data mask
  | none => (data, mask)

/-- Errors the reader can raise.  `tileOutsideBounds` carries the percentage
(`cover_ratio * 100`) interpolated into the
`"Dataset covers less than {:.0f}% of tile"` message; `zeroDivision` models
Python's unguarded `ZeroDivisionError`; `attributeError` models the
unguarded `AttributeError` raised by `point` at reader.py line 341, where
an unmasked sample's `values.data` is a `memoryview` with no `astype`. -/
inductive ReaderError where
  | tileOutsideBounds (percent : ℚ)
  | zeroDivision
  | pointOutsideBounds
  | attributeError
  deriving DecidableEq, Repr

/-- Signed area of the requested bounds — the denominator of the cover
ratio (reader.py lines 178–180); when it is zero Python raises
`ZeroDivisionError`. -/
def boundsDen (bounds : BBox) : ℚ :=
  (bounds.right - bounds.left) * (bounds.top - bounds.bottom)

/-- reader.py lines 172–174: `x_overlap`. -/
def xOverlap (src_bounds bounds : BBox) : ℚ :=
  max 0 (min src_bounds.right bounds.right - max src_bounds.left bounds.left)

/-- reader.py lines 175–177: `y_overlap`. -/
def yOverlap (src_bounds bounds : BBox) : ℚ :=
  max 0 (min src_bounds.top bounds.top - max src_bounds.bottom bounds.bottom)

/-- The cover ratio of reader.py lines 172–180: rectangular intersection of
the reprojected dataset bounds with the requested bounds, divided by the
requested-bounds area (total `ℚ` value; `overlapCheck` guards the zero
denominator separately). -/
def coverFrac (src_bounds bounds : BBox) : ℚ :=
  xOverlap src_bounds bounds * yOverlap src_bounds bounds / boundsDen bounds

/-- reader.py lines 168–185: the Overlap Validator of `part`.  The check
runs only when `minimum_overlap` is supplied and truthy (a `0.0` threshold
is falsy in Python and skips the check). -/
def overlapCheck (C : Collab) (src_dst : Dataset) (dst_crs : Nat) (bounds : BBox)
    (minimum_overlap : Option ℚ) : Except ReaderError Unit :=
  match minimum_overlap with
  | none => .ok ()
  | some m =>
    if m = 0 then .ok ()
    else
      if boundsDen bounds = 0 then .error .zeroDivision
      else
        if coverFrac (C.transform_bounds src_dst.crs dst_crs src_dst.bounds) bounds < m then
          .error (.tileOutsideBounds
            (coverFrac (C.transform_bounds src_dst.crs dst_crs src_dst.bounds) bounds * 100))
        else .ok ()

/-- reader.py lines 193–204: the max-size clamp of `part`, followed by lines
203–204 (`out_height = height or vrt_height`, `out_width = width or
vrt_width`).  The clamp fires when `max_size` is truthy and *not both*
`width` and `height` are truthy, and the larger computed dimension exceeds
`max_size`; it then reassigns both `height` and `width`. -/
def partDims (vrt_height vrt_width : Nat) (height width : Option Nat)
    (max_size : Option Nat) : Nat × Nat :=
  let hw :=
    if optTruthy max_size && !(optTruthy width && optTruthy height) then
      if max vrt_width vrt_height > max_size.getD 0 then
        let aspect : ℚ := (vrt_height : ℚ) / (vrt_width : ℚ)
        if aspect > 1 then
          (some (max_size.getD 0), some (Int.toNat ⌈(max_size.getD 0 : ℚ) / aspect⌉))
        else
          (some (Int.toNat ⌈(max_size.getD 0 : ℚ) * aspect⌉), some (max_size.getD 0))
      else (height, width)
    else (height, width)
  (pyOr hw.1 vrt_height, pyOr hw.2 vrt_width)

/-- reader.py lines 191 and 205–216: the initial full-view window and the
padding adjustment.  When `padding > 0` and the requested grid is not
aligned with the dataset's internal tiling, translate the view transform's
origin by `-padding` pixels, inflate the view by `2*padding` per axis, and
shift the read window inward by `padding` (keeping the original size). -/
def partGeometry (vrt_transform : Affine) (vrt_width vrt_height : Nat)
    (padding : Nat) (notAligned : Bool) : Affine × Nat × Nat × Window :=
  if padding > 0 && notAligned then
    (vrt_transform * Affine.translation (-(padding : ℚ)) (-(padding : ℚ)),
     vrt_width + 2 * padding, vrt_height + 2 * padding,
     ⟨padding, padding, vrt_width, vrt_height⟩)
  else
    (vrt_transform, vrt_width, vrt_height, ⟨0, 0, vrt_width, vrt_height⟩)

/-- reader.py lines 187–235: the post-validation body of `part` — resolve
the output grid via the Transform Resolver (`get_vrt_transform` oracle),
apply the max-size clamp (`partDims`) and the padding adjustment
(`partGeometry`), layer the computed `crs`/`transform`/`width`/`height`
overrides on top of any caller-supplied `vrt_options`, and delegate to
`read` with the computed window. -/
def partBody (C : Collab) (src_dst : Dataset) (bounds : BBox)
    (height width : Option Nat) (padding : Nat) (dcrs : Nat)
    (vrt_options : Option VrtOptions) (max_size : Option Nat)
    (indexes : Option (List Nat)) (force_binary_mask : Bool)
    (nodata : Option ℚ) (unscale : Bool)
    (post_process : Option (DataArr → MaskArr → DataArr × MaskArr))
    (resampling_method : Nat := 0) :
    DataArr × MaskArr :=
  let g := C.get_vrt_transform src_dst bounds height width dcrs
  let dims := partDims g.2.2 g.2.1 height width max_size
  let geo := partGeometry g.1 g.2.1 g.2.2 padding
    (!C.aligned src_dst bounds dims.1 dims.2 dcrs)
  let vopts : VrtOptions :=
    { vrt_options.getD {} with
        crs := some dcrs, transform := some geo.1,
        width := some geo.2.1, height := some geo.2.2.1 }
  read C src_dst (some dims.1) (some dims.2) indexes (some geo.2.2.2)
    force_binary_mask nodata unscale (some vopts) post_process resampling_method

/-- `rio_tiler.reader.part` (reader.py lines 124–235): resolve the target
CRS, reproject caller bounds if a bounds CRS is given, run the overlap
validator, then run `partBody`. -/
def part (C : Collab) (src_dst : Dataset) (bounds : BBox)
    (height width : Option Nat := none)
    (padding : Nat := 0)
    (dst_crs : Option Nat := none)
    (bounds_crs : Option Nat := none)
    (minimum_overlap : Option ℚ := none)
    (vrt_options : Option VrtOptions := none)
    (max_size : Option Nat := none)
    (indexes : Option (List Nat) := none)
    (force_binary_mask : Bool := true)
    (nodata : Option ℚ := none)
    (unscale : Bool := false)
    (post_process : Option (DataArr → MaskArr → DataArr × MaskArr) := none)
    (resampling_method : Nat := 0) :
    Except ReaderError (DataArr × MaskArr) :=
  let dcrs := dst_crs.getD src_dst.crs
  let bounds := match bounds_crs with
    | some bc => C.transform_bounds bc dcrs bounds
    | none => bounds
  match overlapCheck C src_dst dcrs bounds minimum_overlap with
  | .error e => .error e
  | .ok _ => .ok (partBody C src_dst bounds height width padding dcrs
      vrt_options max_size indexes force_binary_mask nodata unscale post_process
      resampling_method)

/-- reader.py lines 258–268: the preview sizing rule.  When neither height
nor width is truthy: keep the native size if the larger native dimension is
strictly under `max_size`, else clamp the longer axis to `max_size` and
ceiling-scale the other aspect-preserving. -/
def previewDims (src_height src_width : Nat) (max_size : Nat)
    (height width : Option Nat) : Option Nat × Option Nat :=
  if !optTruthy height && !optTruthy width then
    if max src_height src_width < max_size then
      (some src_height, some src_width)
    else
      let aspect : ℚ := (src_height : ℚ) / (src_width : ℚ)
      if aspect > 1 then
        (some max_size, some (Int.toNat ⌈(max_size : ℚ) / aspect⌉))
      else
        (some (Int.toNat ⌈(max_size : ℚ) * aspect⌉), some max_size)
  else (height, width)

/-- `rio_tiler.reader.preview` (reader.py lines 238–270): compute the
decimated output size via `previewDims`, then delegate to `read` with no
window (full dataset extent). -/
def preview (C : Collab) (src_dst : Dataset)
    (max_size : Nat := 1024)
    (height width : Option Nat := none)
    (indexes : Option (List Nat) := none)
    (force_binary_mask : Bool := true)
    (nodata : Option ℚ := none)
    (unscale : Bool := false)
    (vrt_options : Option VrtOptions := none)
    (post_process : Option (DataArr → MaskArr → DataArr × MaskArr) := none)
    (resampling_method : Nat := 0) :
    DataArr × MaskArr :=
  let hw := previewDims src_dst.height src_dst.width max_size height width
  read C src_dst hw.1 hw.2 indexes none force_binary_mask nodata unscale
    vrt_options post_process resampling_method

/-- reader.py line 338: the mask produced inside `point`.  With masked mode
on it is `values.mask * 255` — 255 exactly where the numpy masked-array
flag is `true` (sample reported invalid) — and with masked mode off it is
`numpy.zeros` of the values' shape. -/
def pointMask (masked : Bool) (maskFlags : List Bool) (values : List ℚ) : List ℚ :=
  if masked then maskFlags.map (fun b => if b then (255 : ℚ) else 0)
  else values.map (fun _ => 0)

/-- `rio_tiler.reader.point` (reader.py lines 273–351): transform the
coordinate into the dataset's CRS, fail when it is not strictly inside the
dataset bounds, build the virtual view via the `buildVrtParams` policy,
sample one pixel, derive the mask via `pointMask`, optionally unscale with
the view's first band's scale/offset pair, apply the post-process hook, and
return the per-band values.

With `masked=False` the sample is a plain ndarray, so line 337's
`values.data` is a `memoryview` (line 338 itself guards `values.mask`
behind `if masked`): it still has `shape`/`tolist`, but line 341's
`astype` raises an unguarded `AttributeError` when unscale is requested —
modelled by throwing `ReaderError.attributeError` in the unscale branch. -/
def point (C : Collab) (src_dst : Dataset) (coordinates : ℚ × ℚ)
    (indexes : Option (List Nat) := none)
    (masked : Bool := true)
    (nodata : Option ℚ := none)
    (unscale : Bool := false)
    (vrt_options : Option VrtOptions := none)
    (post_process : Option (List ℚ → List ℚ → List ℚ × List ℚ) := none)
    (coord_crs : Nat := 4326) (resampling_method : Nat := 0) :
    Except ReaderError (List ℚ) := do
  let ll := C.transform_coords coord_crs src_dst.crs coordinates
  let lon := ll.1
  let lat := ll.2
  if ¬(src_dst.bounds.left < lon ∧ lon < src_dst.bounds.right
      ∧ src_dst.bounds.bottom < lat ∧ lat < src_dst.bounds.top) then
    throw .pointOutsideBounds
  let indexes := match indexes with
    | some l => l
    | none => src_dst.bandIndexes
  let vrt_params := buildVrtParams src_dst.nodata nodata (has_alpha_band src_dst)
    vrt_options resampling_method
  let vrt := openVrt src_dst vrt_params
  let vm := C.sample (lon, lat) indexes masked
  let point_values := vm.1
  let mask := pointMask masked vm.2 point_values
  let point_values ←
    if unscale then
      if masked then
        pure (point_values.map (fun v => v * vrt.scales.headD 1 + vrt.offsets.headD 0))
      else
        throw ReaderError.attributeError
    else
      pure point_values
  let point_values := match post_process with
    | some f => (f point_values mask).1
    | none => point_values
  return point_values

/-! ## Concrete fixtures (used by witnesses and counterexamples) -/

/-- A concrete instantiation of every collaborator oracle:
identity coordinate transforms, constant pixel value 7, full-coverage mask,
a fixed `8 × 6` output grid from the Transform Resolver, grids never
aligned, and a single valid sample of value 5. -/
def constCollab : Collab where
  transform_bounds := fun _ _ b => b
  get_vrt_transform := fun _ _ _ _ _ => (⟨1, 0, 0, 0, -1, 0⟩, 8, 6)
  aligned := fun _ _ _ _ _ => false
  pix := fun _ _ _ _ _ => 7
  maskpix := fun _ _ _ => 255
  transform_coords := fun _ _ c => c
  sample := fun _ _ _ => ([5], [false])

/-- A tiny single-band dataset (2 rows × 3 cols, no nodata, no alpha). -/
def tinyDS : Dataset where
  crs := 32617
  bounds := ⟨0, 0, 10, 10⟩
  height := 2
  width := 3
  nodata := none
  colorinterp := [CI.nonalpha]
  scales := [2]
  offsets := [-10]

/-! ## Shape and mask helper lemmas -/

lemma mkArr2_shape (h w : Nat) (f : Nat → Nat → ℚ) : hasShape2 (mkArr2 h w f) h w := by
  constructor
  · simp [mkArr2]
  · intro r hr
    simp only [mkArr2, List.mem_map] at hr
    obtain ⟨i, _, rfl⟩ := hr
    simp

lemma mkArr3_shape (b h w : Nat) (f : Nat → Nat → Nat → ℚ) :
    hasShape (mkArr3 b h w f) h w := by
  intro band hband
  simp only [mkArr3, List.mem_map] at hband
  obtain ⟨i, _, rfl⟩ := hband
  exact ⟨(mkArr2_shape h w (f i)).1, (mkArr2_shape h w (f i)).2⟩

lemma hasShape_dropLast {d : DataArr} {h w : Nat} (hd : hasShape d h w) :
    hasShape d.dropLast h w :=
  fun band hband => hd band ((List.dropLast_prefix d).subset hband)

lemma hasShape2_astypeU8 {m : MaskArr} {h w : Nat} (hm : hasShape2 m h w) :
    hasShape2 (astypeU8 m) h w := by
  refine ⟨?_, ?_⟩
  · simpa [astypeU8] using hm.1
  · intro r hr
    simp only [astypeU8, List.mem_map] at hr
    obtain ⟨r0, hr0, rfl⟩ := hr
    simpa using hm.2 r0 hr0

lemma hasShape2_binarize {m : MaskArr} {h w : Nat} (hm : hasShape2 m h w) :
    hasShape2 (binarizeMask m) h w := by
  refine ⟨?_, ?_⟩
  · simpa [binarizeMask] using hm.1
  · intro r hr
    simp only [binarizeMask, List.mem_map] at hr
    obtain ⟨r0, hr0, rfl⟩ := hr
    simpa using hm.2 r0 hr0

lemma hasShape_unscale {d : DataArr} {h w : Nat} (s o : ℚ) (hd : hasShape d h w) :
    hasShape (unscaleArr s o d) h w := by
  intro band hband
  simp only [unscaleArr, List.mem_map] at hband
  obtain ⟨b0, hb0, rfl⟩ := hband
  refine ⟨by simpa using (hd b0 hb0).1, ?_⟩
  intro r hr
  simp only [List.mem_map] at hr
  obtain ⟨r0, hr0, rfl⟩ := hr
  simpa using (hd b0 hb0).2 r0 hr0

lemma getLast_shape {d : DataArr} {h w : Nat} (hd : hasShape d h w) (hne : d ≠ []) :
    hasShape2 ((d.getLast?).getD []) h w := by
  rw [List.getLast?_eq_getLast_of_ne_nil hne]
  simpa using hd _ (List.getLast_mem hne)

/-- Every element of a binarized mask is 0 or 255. -/
lemma binarize_mem (m : MaskArr) :
    ∀ row ∈ binarizeMask m, ∀ v ∈ row, v = 0 ∨ v = 255 := by
  intro row hrow v hv
  simp only [binarizeMask, List.mem_map] at hrow
  obtain ⟨r0, _, rfl⟩ := hrow
  simp only [List.mem_map] at hv
  obtain ⟨v0, _, rfl⟩ := hv
  by_cases h : v0 = 0 <;> simp [h]

lemma mkArr3_ne_nil {b : Nat} (hb : b ≠ 0) (h w : Nat) (f : Nat → Nat → Nat → ℚ) :
    mkArr3 b h w f ≠ [] := by
  simp [mkArr3, hb]

/-- `readRaw` with a truthy output shape returns data and mask of exactly
that shape, in both the alpha-extraction and the separate-mask branch. -/
lemma readRaw_shape_some (C : Collab) (vrt : Dataset) (ix : List Nat)
    (win : Option Window) (h w : Nat) (hh : h ≠ 0) (hw : w ≠ 0) :
    hasShape (readRaw C vrt ix win (some h) (some w)).1 h w
    ∧ hasShape2 (readRaw C vrt ix win (some h) (some w)).2 h w := by
  have hsh : ∀ n, outShape n (some h) (some w) = some (n, h, w) := by
    intro n; simp [outShape, optTruthy, hh, hw]
  unfold readRaw
  by_cases halpha : vrt.colorinterp.contains CI.alpha = true
  · simp only [halpha, if_true, hsh, vrtRead]
    refine ⟨hasShape_dropLast (mkArr3_shape _ _ _ _), ?_⟩
    exact hasShape2_astypeU8
      (getLast_shape (mkArr3_shape _ _ _ _) (mkArr3_ne_nil (by simp) _ _ _))
  · simp only [halpha, if_false, Bool.false_eq_true, hsh, vrtRead, vrtDatasetMask,
      optTruthy, Option.getD_some]
    refine ⟨mkArr3_shape _ _ _ _, ?_⟩
    rw [if_pos (show (decide (h ≠ 0) && decide (w ≠ 0)) = true by simp [hh, hw])]
    exact mkArr2_shape _ _ _
  -- branch structure mirrors reader.py lines 84–108

/-- `readRaw` with no (or a falsy) output shape returns data and mask at
the window's native resolution. -/
lemma readRaw_shape_none (C : Collab) (vrt : Dataset) (ix : List Nat)
    (win : Option Window) (h w : Option Nat)
    (hc : (optTruthy h && optTruthy w) = false) :
    hasShape (readRaw C vrt ix win h w).1 (nativeRows vrt win) (nativeCols vrt win)
    ∧ hasShape2 (readRaw C vrt ix win h w).2 (nativeRows vrt win) (nativeCols vrt win) := by
  have hsh : ∀ n, outShape n h w = none := by
    intro n; simp [outShape, hc]
  unfold readRaw
  by_cases halpha : vrt.colorinterp.contains CI.alpha = true
  · simp only [halpha, if_true, hsh, vrtRead]
    refine ⟨hasShape_dropLast (mkArr3_shape _ _ _ _), ?_⟩
    exact hasShape2_astypeU8
      (getLast_shape (mkArr3_shape _ _ _ _) (mkArr3_ne_nil (by simp) _ _ _))
  · simp only [halpha, if_false, Bool.false_eq_true, hsh, vrtRead, vrtDatasetMask, hc]
    exact ⟨mkArr3_shape _ _ _ _, mkArr2_shape _ _ _⟩

/-- `read` with truthy requested height/width and no post-process hook
returns data and mask shaped exactly to the request. -/
lemma read_shape_some (C : Collab) (ds : Dataset) (h w : Nat)
    (ix : Option (List Nat)) (win : Option Window) (fbm : Bool)
    (nd : Option ℚ) (us : Bool) (vo : Option VrtOptions)
    (hh : h ≠ 0) (hw : w ≠ 0) :
    hasShape (read C ds (some h) (some w) ix win fbm nd us vo none).1 h w
    ∧ hasShape2 (read C ds (some h) (some w) ix win fbm nd us vo none).2 h w := by
  obtain ⟨h1, h2⟩ := readRaw_shape_some C
    (openVrt ds (buildVrtParams ds.nodata nd (has_alpha_band ds) vo))
    (match ix with | some l => l | none => non_alpha_indexes ds) win h w hh hw
  dsimp only [read]
  constructor
  · cases us
    · simpa using h1
    · simpa using hasShape_unscale _ _ h1
  · cases fbm
    · simpa using h2
    · simpa using hasShape2_binarize h2

/-- `read` with a falsy output size and no post-process hook returns data
and mask at the window's native resolution on the virtual view. -/
lemma read_shape_none (C : Collab) (ds : Dataset) (h w : Option Nat)
    (ix : Option (List Nat)) (win : Option Window) (fbm : Bool)
    (nd : Option ℚ) (us : Bool) (vo : Option VrtOptions)
    (hc : (optTruthy h && optTruthy w) = false) :
    hasShape (read C ds h w ix win fbm nd us vo none).1
      (nativeRows (openVrt ds (buildVrtParams ds.nodata nd (has_alpha_band ds) vo)) win)
      (nativeCols (openVrt ds (buildVrtParams ds.nodata nd (has_alpha_band ds) vo)) win)
    ∧ hasShape2 (read C ds h w ix win fbm nd us vo none).2
      (nativeRows (openVrt ds (buildVrtParams ds.nodata nd (has_alpha_band ds) vo)) win)
      (nativeCols (openVrt ds (buildVrtParams ds.nodata nd (has_alpha_band ds) vo)) win) := by
  obtain ⟨h1, h2⟩ := readRaw_shape_none C
    (openVrt ds (buildVrtParams ds.nodata nd (has_alpha_band ds) vo))
    (match ix with | some l => l | none => non_alpha_indexes ds) win h w hc
  dsimp only [read]
  constructor
  · cases us
    · simpa using h1
    · simpa using hasShape_unscale _ _ h1
  · cases fbm
    · simpa using h2
    · simpa using hasShape2_binarize h2

/-- The mask returned by `read` with `force_binary_mask` on and no
post-process hook is binary. -/
lemma read_mask_binary (C : Collab) (ds : Dataset) (h w : Option Nat)
    (ix : Option (List Nat)) (win : Option Window)
    (nd : Option ℚ) (us : Bool) (vo : Option VrtOptions) :
    ∀ row ∈ (read C ds h w ix win true nd us vo none).2, ∀ v ∈ row, v = 0 ∨ v = 255 := by
  dsimp only [read]
  exact binarize_mem _

/-! ## Overlap validator lemmas -/

/-- With a nonzero requested-bounds area the cover ratio is nonnegative:
if the area is negative, exactly one axis of the bounds is inverted, and
then the corresponding overlap factor is clamped to zero. -/
lemma coverFrac_nonneg (sb b : BBox) (hd : boundsDen b ≠ 0) : 0 ≤ coverFrac sb b := by
  unfold coverFrac
  rcases lt_trichotomy (boundsDen b) 0 with hlt | heq | hgt
  · rcases mul_neg_iff.mp (show (b.right - b.left) * (b.top - b.bottom) < 0 from hlt)
      with ⟨h1, h2⟩ | ⟨h1, h2⟩
    · have hy : yOverlap sb b = 0 := by
        apply max_eq_left
        have h3 := min_le_right sb.top b.top
        have h4 := le_max_right sb.bottom b.bottom
        linarith
      rw [hy]
      simp
    · have hx : xOverlap sb b = 0 := by
        apply max_eq_left
        have h3 := min_le_right sb.right b.right
        have h4 := le_max_right sb.left b.left
        linarith
      rw [hx]
      simp
  · exact absurd heq hd
  · exact div_nonneg (mul_nonneg (le_max_left _ _) (le_max_left _ _)) (le_of_lt hgt)

/-- With a nonzero requested-bounds area, the overlap check with a supplied
threshold reduces to the comparison of the cover ratio with the threshold
(including for a falsy `0.0` threshold, where the skipped check agrees with
the comparison because the ratio is never negative). -/
lemma overlapCheck_some_eq (C : Collab) (ds : Dataset) (dcrs : Nat) (b : BBox) (m : ℚ)
    (hd : boundsDen b ≠ 0) :
    overlapCheck C ds dcrs b (some m) =
      if coverFrac (C.transform_bounds ds.crs dcrs ds.bounds) b < m then
        .error (.tileOutsideBounds
          (coverFrac (C.transform_bounds ds.crs dcrs ds.bounds) b * 100))
      else .ok () := by
  unfold overlapCheck
  dsimp only
  by_cases hm : m = 0
  · subst hm
    rw [if_pos rfl, if_neg (not_lt.mpr (coverFrac_nonneg _ _ hd))]
  · rw [if_neg hm, if_neg hd]

/-! ## Orchestrator helper lemmas -/

lemma pyOr_some (x v : Nat) : pyOr (some x) v = if x = 0 then v else x := by
  unfold pyOr optTruthy
  by_cases hx : x = 0 <;> simp [hx]

lemma pyOr_none (v : Nat) : pyOr none v = v := rfl

/-- When both height and width are truthy, the max-size clamp of `part`
never fires and the explicit values are the output dimensions. -/
lemma partDims_both (vh vw h w : Nat) (ms : Option Nat) (hh : h ≠ 0) (hw : w ≠ 0) :
    partDims vh vw (some h) (some w) ms = (h, w) := by
  unfold partDims
  have hc : (optTruthy ms && !(optTruthy (some w) && optTruthy (some h))) = false := by
    simp [optTruthy, hh, hw]
  rw [hc]
  simp [pyOr_some, hh, hw]

/-- With no `minimum_overlap`, `part` always succeeds with the result of
`partBody`. -/
lemma part_none_ok (C : Collab) (ds : Dataset) (b : BBox) (h w : Option Nat)
    (pad : Nat) (dcrs : Option Nat) (vo : Option VrtOptions) (ms : Option Nat)
    (ix : Option (List Nat)) (fbm : Bool) (nd : Option ℚ) (us : Bool)
    (pp : Option (DataArr → MaskArr → DataArr × MaskArr)) :
    part C ds b h w pad dcrs none none vo ms ix fbm nd us pp =
      .ok (partBody C ds b h w pad (dcrs.getD ds.crs) vo ms ix fbm nd us pp) := rfl

/-- With only `width` truthy, the preview sizing branch is skipped. -/
lemma previewDims_skip (sh sw msz wdt : Nat) (hw : wdt ≠ 0) :
    previewDims sh sw msz none (some wdt) = (none, some wdt) := by
  unfold previewDims
  have hc : (!optTruthy (none : Option Nat) && !optTruthy (some wdt)) = false := by
    simp [optTruthy, hw]
  rw [hc]
  simp

/-- The Virtual View Builder with no raw overrides never sets a grid-size
override, so the warped view keeps the source's grid. -/
lemma buildVrtParams_geo_none (a b : Option ℚ) (c : Bool) :
    (buildVrtParams a b c none).height = none ∧ (buildVrtParams a b c none).width = none := by
  unfold buildVrtParams
  rcases b with _ | v
  · rcases a with _ | v2 <;> cases c <;> simp
  · cases c <;> simp

/-! ## Claim theorems -/

/-- C1 counterexample: with a dataset nodata of 0 and caller-supplied raw
warp overrides `{add_alpha: True}`, the Virtual View Builder policy (as
used by `read` and `point`) produces parameters with `add_alpha` set
together with an active nodata value, because raw overrides are merged last
and take precedence — so the claimed invariant fails after the merge. -/
theorem C1_add_alpha_nodata_counterexample :
    (buildVrtParams (some 0) none false (some { add_alpha := some true })).add_alpha = true
    ∧ (buildVrtParams (some 0) none false (some { add_alpha := some true })).nodata = some 0 :=
  ⟨rfl, rfl⟩

/-- C1 (amended): whenever the caller-supplied raw overrides set neither
`add_alpha` nor `nodata` (in particular when there are none), the virtual
view parameters built by the policy never have `add_alpha` set together
with an active nodata value. -/
theorem C1_add_alpha_nodata_exclusive (ds_nd nd : Option ℚ) (hasAlpha : Bool)
    (o : Option VrtOptions)
    (ha : ∀ x ∈ o, VrtOptions.add_alpha x = none)
    (hn : ∀ x ∈ o, VrtOptions.nodata x = none) :
    ¬((buildVrtParams ds_nd nd hasAlpha o).add_alpha = true
      ∧ ((buildVrtParams ds_nd nd hasAlpha o).nodata).isSome = true) := by
  rcases o with _ | o
  · unfold buildVrtParams
    rcases nd with _ | v
    · rcases ds_nd with _ | v2 <;> cases hasAlpha <;> simp
    · cases hasAlpha <;> simp
  · have ha' := ha o rfl
    have hn' := hn o rfl
    unfold buildVrtParams VrtParams.merge
    rcases nd with _ | v
    · rcases ds_nd with _ | v2 <;> cases hasAlpha <;> simp [ha', hn']
    · cases hasAlpha <;> simp [ha', hn']

/-- Witness for C1 (amended) at a concrete input: empty overrides, dataset
nodata 0, no alpha band. -/
theorem C1_add_alpha_nodata_exclusive_witness :
    (∀ x ∈ (some ({} : VrtOptions)), VrtOptions.add_alpha x = none)
    ∧ (∀ x ∈ (some ({} : VrtOptions)), VrtOptions.nodata x = none)
    ∧ ¬((buildVrtParams (some 0) none false (some {})).add_alpha = true
        ∧ ((buildVrtParams (some 0) none false (some {})).nodata).isSome = true) :=
  ⟨fun x hx => by cases hx; rfl, fun x hx => by cases hx; rfl,
   C1_add_alpha_nodata_exclusive (some 0) none false (some {})
     (fun x hx => by cases hx; rfl) (fun x hx => by cases hx; rfl)⟩

/-- C2: with a supplied `minimum_overlap` threshold and nondegenerate
requested bounds, `part` fails with the OutOfBounds condition exactly when
the cover ratio is below the threshold, and the error carries the ratio as
a percentage (`ratio * 100`); at or above the threshold the overlap check
passes, and with no threshold supplied no overlap failure is possible. -/
theorem C2_part_overlap_spec (C : Collab) (ds : Dataset) (b : BBox)
    (h w : Option Nat) (pad : Nat) (dcrs : Option Nat) (m : ℚ)
    (vo : Option VrtOptions) (ms : Option Nat) (ix : Option (List Nat))
    (fbm : Bool) (nd : Option ℚ) (us : Bool)
    (pp : Option (DataArr → MaskArr → DataArr × MaskArr))
    (hd : boundsDen b ≠ 0) :
    (coverFrac (C.transform_bounds ds.crs (dcrs.getD ds.crs) ds.bounds) b < m →
      part C ds b h w pad dcrs none (some m) vo ms ix fbm nd us pp =
        .error (.tileOutsideBounds
          (coverFrac (C.transform_bounds ds.crs (dcrs.getD ds.crs) ds.bounds) b * 100)))
    ∧ (¬coverFrac (C.transform_bounds ds.crs (dcrs.getD ds.crs) ds.bounds) b < m →
      part C ds b h w pad dcrs none (some m) vo ms ix fbm nd us pp =
        .ok (partBody C ds b h w pad (dcrs.getD ds.crs) vo ms ix fbm nd us pp))
    ∧ part C ds b h w pad dcrs none none vo ms ix fbm nd us pp =
        .ok (partBody C ds b h w pad (dcrs.getD ds.crs) vo ms ix fbm nd us pp) := by
  unfold part
  dsimp only
  rw [overlapCheck_some_eq C ds (dcrs.getD ds.crs) b m hd]
  refine ⟨?_, ?_, rfl⟩
  · intro hc
    rw [if_pos hc]
  · intro hc
    rw [if_neg hc]

/-- Witness for C2 at a concrete input: requested bounds disjoint from the
dataset, threshold 1/2, cover ratio 0 < 1/2, so `part` fails with the
OutOfBounds error carrying the percentage. -/
theorem C2_part_overlap_spec_witness :
    boundsDen ⟨20, 20, 30, 30⟩ ≠ 0
    ∧ part constCollab tinyDS ⟨20, 20, 30, 30⟩ none none 0 none none (some (1/2))
        none none none true none false none =
      .error (.tileOutsideBounds
        (coverFrac (constCollab.transform_bounds tinyDS.crs tinyDS.crs tinyDS.bounds)
          ⟨20, 20, 30, 30⟩ * 100)) :=
  ⟨by norm_num [boundsDen],
   (C2_part_overlap_spec constCollab tinyDS ⟨20, 20, 30, 30⟩ none none 0 none (1/2)
     none none none true none false none (by norm_num [boundsDen])).1
     (by norm_num [coverFrac, xOverlap, yOverlap, boundsDen, constCollab, tinyDS,
        min_def, max_def])⟩

/-- C3 evaluation at the failing input: with masked mode on, `point`'s
internally produced mask (reader.py line 338, `values.mask * 255`) is 0 for
a band the collaborator reports valid (numpy masked-array flag `false`) and
255 for an invalid band — the inverse of the claimed convention; with
masked mode off it is all-zero as claimed. -/
theorem C3_pointMask_eval :
    pointMask true [false, true] [5, 9] = [0, 255]
    ∧ pointMask false [false, true] [5, 9] = [0, 0] :=
  ⟨rfl, rfl⟩

/-- Concrete evaluation of the max-size clamp at 1024×2048 with explicit
width 100 and max_size 512. -/
lemma partDims_cex_eval : partDims 1024 2048 none (some 100) (some 512) = (256, 512) := by
  unfold partDims
  dsimp only
  rw [if_pos (show (optTruthy (some 512)
      && !(optTruthy (some 100) && optTruthy none)) = true by decide)]
  rw [if_pos (show max 2048 1024 > (some 512 : Option Nat).getD 0 by decide)]
  simp only [Option.getD_some]
  rw [if_neg (show ¬(((1024 : Nat) : ℚ) / ((2048 : Nat) : ℚ) > 1) by norm_num)]
  rw [show ((512 : Nat) : ℚ) * (((1024 : Nat) : ℚ) / ((2048 : Nat) : ℚ))
      = ((256 : Nat) : ℚ) by norm_num]
  rw [Int.ceil_natCast]
  norm_num [pyOr_some]
  decide

/-- C4 counterexample: with `max_size=512`, an explicit `width=100`, no
height, and a computed grid of 2048×1024, the clamp fires (not BOTH
dimensions were given) and overwrites the caller's explicit width with 512,
so the explicit value is NOT used as the final output dimension. -/
theorem C4_partDims_counterexample :
    partDims 1024 2048 none (some 100) (some 512) = (256, 512)
    ∧ (partDims 1024 2048 none (some 100) (some 512)).2 ≠ 100 :=
  ⟨partDims_cex_eval, by rw [partDims_cex_eval]; decide⟩

/-- C4 (amended): the max-size clamp runs whenever `max_size` is truthy and
NOT both `height` and `width` are truthy; when additionally the larger
computed dimension exceeds `max_size`, it recomputes BOTH output dimensions
from `max_size` and the aspect ratio, overriding any single caller-supplied
explicit dimension; caller-supplied explicit values are the final output
dimensions exactly when both are given or when the clamp does not fire. -/
theorem C4_partDims_spec (vh vw : Nat) (h w ms : Option Nat) (hvw : 0 < vw) :
    ((optTruthy ms && !(optTruthy w && optTruthy h)) = true →
      max vw vh > ms.getD 0 →
      partDims vh vw h w ms =
        (if ((vh : ℚ) / (vw : ℚ)) > 1 then
          (ms.getD 0, Int.toNat ⌈(ms.getD 0 : ℚ) / ((vh : ℚ) / (vw : ℚ))⌉)
        else
          (Int.toNat ⌈(ms.getD 0 : ℚ) * ((vh : ℚ) / (vw : ℚ))⌉, ms.getD 0)))
    ∧ (¬((optTruthy ms && !(optTruthy w && optTruthy h)) = true
          ∧ max vw vh > ms.getD 0) →
      partDims vh vw h w ms = (pyOr h vh, pyOr w vw)) := by
  constructor
  · intro hc hgt
    have hms : ms.getD 0 ≠ 0 := by
      have h1 := hc
      simp only [Bool.and_eq_true] at h1
      simpa [optTruthy] using h1.1
    have hms' : (0 : ℚ) < (ms.getD 0 : Nat) := by
      exact_mod_cast Nat.pos_of_ne_zero hms
    unfold partDims
    dsimp only
    rw [if_pos hc, if_pos hgt]
    by_cases ha : ((vh : ℚ) / (vw : ℚ)) > 1
    · rw [if_pos ha, if_pos ha]
      have hy : (0 : ℚ) < (ms.getD 0 : ℚ) / ((vh : ℚ) / (vw : ℚ)) :=
        div_pos hms' (lt_trans zero_lt_one ha)
      have hy' : 0 < ⌈(ms.getD 0 : ℚ) / ((vh : ℚ) / (vw : ℚ))⌉ := Int.ceil_pos.mpr hy
      have hy'' : Int.toNat ⌈(ms.getD 0 : ℚ) / ((vh : ℚ) / (vw : ℚ))⌉ ≠ 0 := by omega
      simp [pyOr_some, hms, hy'']
    · rw [if_neg ha, if_neg ha]
      rcases Nat.eq_zero_or_pos vh with hvh | hvh
      · subst hvh
        simp [pyOr_some, hms]
      · have hx : (0 : ℚ) < (ms.getD 0 : ℚ) * ((vh : ℚ) / (vw : ℚ)) := by
          apply mul_pos hms'
          apply div_pos
          · exact_mod_cast hvh
          · exact_mod_cast hvw
        have hx' : 0 < ⌈(ms.getD 0 : ℚ) * ((vh : ℚ) / (vw : ℚ))⌉ := Int.ceil_pos.mpr hx
        have hx'' : Int.toNat ⌈(ms.getD 0 : ℚ) * ((vh : ℚ) / (vw : ℚ))⌉ ≠ 0 := by omega
        simp [pyOr_some, hms, hx'']
  · intro hc
    unfold partDims
    dsimp only
    by_cases h1 : (optTruthy ms && !(optTruthy w && optTruthy h)) = true
    · have h2 : ¬max vw vh > ms.getD 0 := fun hgt => hc ⟨h1, hgt⟩
      rw [if_pos h1, if_neg h2]
    · rw [if_neg h1]

/-- Witness for C4 (amended) at the counterexample input: the clamp fires
and recomputes both dimensions from max_size 512 and aspect 1/2. -/
theorem C4_partDims_spec_witness :
    0 < 2048 ∧ partDims 1024 2048 none (some 100) (some 512) = (256, 512) := by
  refine ⟨by decide, ?_⟩
  have h := (C4_partDims_spec 1024 2048 none (some 100) (some 512) (by decide)).1
    (by decide) (by decide)
  rw [h, if_neg (show ¬(((1024 : Nat) : ℚ) / ((2048 : Nat) : ℚ) > 1) by norm_num)]
  simp only [Option.getD_some]
  rw [show ((512 : Nat) : ℚ) * (((1024 : Nat) : ℚ) / ((2048 : Nat) : ℚ))
      = ((256 : Nat) : ℚ) by norm_num]
  rw [Int.ceil_natCast]
  norm_num
  decide

/-- C5: with positive padding on a non-aligned grid, `part`'s geometry
adjustment translates the view transform's origin by `-P` pixels, inflates
the view width and height by `2P` each, and shifts the read window inward
by `P` at the original size; and the data array of the returned result is
shaped to the UNPADDED requested (height, width). -/
theorem C5_part_padding_spec :
    (∀ (t : Affine) (vw vh P : Nat), 0 < P →
      partGeometry t vw vh P true =
        (t * Affine.translation (-(P : ℚ)) (-(P : ℚ)), vw + 2 * P, vh + 2 * P,
          ⟨P, P, vw, vh⟩))
    ∧ (∀ (C : Collab) (ds : Dataset) (b : BBox) (h w P : Nat) (dcrs : Option Nat)
        (vo : Option VrtOptions) (msz : Option Nat) (ix : Option (List Nat))
        (fbm : Bool) (nd : Option ℚ) (us : Bool), h ≠ 0 → w ≠ 0 →
        ∃ res, part C ds b (some h) (some w) P dcrs none none vo msz ix fbm nd us none
            = .ok res ∧ hasShape res.1 h w) := by
  constructor
  · intro t vw vh P hP
    unfold partGeometry
    rw [if_pos (show (decide (P > 0) && true) = true by simp [hP])]
  · intro C ds b h w P dcrs vo msz ix fbm nd us hh hw
    refine ⟨partBody C ds b (some h) (some w) P (dcrs.getD ds.crs) vo msz ix fbm nd us
      none, part_none_ok C ds b (some h) (some w) P dcrs vo msz ix fbm nd us none, ?_⟩
    unfold partBody
    dsimp only
    rw [partDims_both _ _ h w msz hh hw]
    dsimp only
    exact (read_shape_some C ds h w ix _ fbm nd us _ hh hw).1

/-- Witness for C5 at a concrete input: 3×4 requested output, padding 2,
grids never aligned under `constCollab`. -/
theorem C5_part_padding_spec_witness :
    (3 : Nat) ≠ 0 ∧ (4 : Nat) ≠ 0
    ∧ ∃ res, part constCollab tinyDS ⟨0, 0, 10, 10⟩ (some 3) (some 4) 2 none none none
        none none none true none false none = .ok res ∧ hasShape res.1 3 4 :=
  ⟨by decide, by decide,
   (C5_part_padding_spec).2 constCollab tinyDS ⟨0, 0, 10, 10⟩ 3 4 2 none none none
     none true none false (by decide) (by decide)⟩

/-- C6: the preview sizing rule — native size used unchanged when the
larger native dimension is strictly under `max_size`; otherwise the longer
axis is clamped to `max_size` and the shorter axis is ceiling-scaled
aspect-preserving; in particular a 2048-wide × 1024-high dataset at
max_size 512 previews at 512×256 (width × height); and `preview` delegates
exactly these dimensions to `read`. -/
theorem C6_previewDims_spec (sh sw ms : Nat) (hsw : 0 < sw) :
    (max sh sw < ms → previewDims sh sw ms none none = (some sh, some sw))
    ∧ (ms ≤ max sh sw →
      previewDims sh sw ms none none =
        (if sw < sh then
          (some ms, some (Int.toNat ⌈(ms : ℚ) * (sw : ℚ) / (sh : ℚ)⌉))
        else
          (some (Int.toNat ⌈(ms : ℚ) * (sh : ℚ) / (sw : ℚ)⌉), some ms)))
    ∧ previewDims 1024 2048 512 none none = (some 256, some 512)
    ∧ (∀ (C : Collab) (ds : Dataset) (msz : Nat) (ix : Option (List Nat))
        (fbm : Bool) (nd : Option ℚ) (us : Bool) (vo : Option VrtOptions)
        (pp : Option (DataArr → MaskArr → DataArr × MaskArr)),
      preview C ds msz none none ix fbm nd us vo pp =
        read C ds (previewDims ds.height ds.width msz none none).1
          (previewDims ds.height ds.width msz none none).2 ix none fbm nd us vo pp) := by
  have hiff : ((sh : ℚ) / (sw : ℚ) > 1) ↔ sw < sh := by
    rw [gt_iff_lt, one_lt_div (show (0 : ℚ) < (sw : ℚ) by exact_mod_cast hsw)]
    exact_mod_cast Iff.rfl
  refine ⟨?_, ?_, ?_, ?_⟩
  · intro hlt
    unfold previewDims
    rw [if_pos (show (!optTruthy none && !optTruthy (none : Option Nat)) = true by decide)]
    rw [if_pos hlt]
  · intro hms
    unfold previewDims
    rw [if_pos (show (!optTruthy none && !optTruthy (none : Option Nat)) = true by decide)]
    rw [if_neg (not_lt.mpr hms)]
    dsimp only
    by_cases hc : sw < sh
    · rw [if_pos (hiff.mpr hc), if_pos hc, div_div_eq_mul_div]
    · rw [if_neg (fun hgt => hc (hiff.mp hgt)), if_neg hc, mul_div_assoc]
  · unfold previewDims
    rw [if_pos (show (!optTruthy none && !optTruthy (none : Option Nat)) = true by decide)]
    rw [if_neg (show ¬max 1024 2048 < 512 by decide)]
    dsimp only
    rw [if_neg (show ¬(((1024 : Nat) : ℚ) / ((2048 : Nat) : ℚ) > 1) by norm_num)]
    rw [show ((512 : Nat) : ℚ) * (((1024 : Nat) : ℚ) / ((2048 : Nat) : ℚ))
        = ((256 : Nat) : ℚ) by norm_num]
    rw [Int.ceil_natCast]
    norm_num
    decide
  · intro C ds msz ix fbm nd us vo pp
    rfl

/-- Witness for C6 at the concrete input from the spec: native 2048×1024,
max_size 512. -/
theorem C6_previewDims_spec_witness :
    0 < 2048 ∧ previewDims 1024 2048 512 none none = (some 256, some 512) :=
  ⟨by decide, (C6_previewDims_spec 1024 2048 512 (by decide)).2.2.1⟩

/-- C7 counterexample: a `point` call with masked mode off and unscale
requested never returns values — reader.py line 337's `values.data` is a
`memoryview` for the unmasked plain-ndarray sample, so line 341's `astype`
raises an unguarded AttributeError instead of producing the unscaled data
the claim asserts for "every call to point with unscale requested". -/
theorem C7_point_unscale_unmasked_counterexample :
    point constCollab tinyDS (5, 5) none false none true none none =
      .error .attributeError := by
  unfold point
  simp only [constCollab, tinyDS]
  rw [if_neg (show ¬¬((0 : ℚ) < 5 ∧ (5 : ℚ) < 10 ∧ (0 : ℚ) < 5 ∧ (5 : ℚ) < 10)
    by norm_num)]
  rfl

/-- C7 (amended): with unscale requested, `read` (always) and `point` (with
masked mode on) return the sample data transformed as
`value * scale + offset` using the virtual view's FIRST band's scale/offset
pair, applied uniformly to all returned bands (the `ℚ` model makes the
float conversion exact), and 5·2.0 + (−10.0) = 0; a `point` call with
masked mode off and unscale requested never returns values (the unmasked
sample's `memoryview` has no `astype`, raising AttributeError). -/
theorem C7_unscale_spec :
    (∀ (C : Collab) (ds : Dataset) (h w : Option Nat) (ix : Option (List Nat))
        (win : Option Window) (fbm : Bool) (nd : Option ℚ) (vo : Option VrtOptions),
      read C ds h w ix win fbm nd true vo none =
        (unscaleArr
            ((openVrt ds (buildVrtParams ds.nodata nd (has_alpha_band ds) vo)).scales.headD 1)
            ((openVrt ds (buildVrtParams ds.nodata nd (has_alpha_band ds) vo)).offsets.headD 0)
            (read C ds h w ix win fbm nd false vo none).1,
         (read C ds h w ix win fbm nd false vo none).2))
    ∧ (∀ (C : Collab) (ds : Dataset) (coords : ℚ × ℚ) (ix : Option (List Nat))
        (nd : Option ℚ) (vo : Option VrtOptions) (ccrs : Nat),
      point C ds coords ix true nd true vo none ccrs =
        (point C ds coords ix true nd false vo none ccrs).map
          (List.map (fun v => v *
            ((openVrt ds (buildVrtParams ds.nodata nd (has_alpha_band ds) vo)).scales.headD 1) +
            ((openVrt ds (buildVrtParams ds.nodata nd (has_alpha_band ds) vo)).offsets.headD 0))))
    ∧ (∀ (C : Collab) (ds : Dataset) (coords : ℚ × ℚ) (ix : Option (List Nat))
        (nd : Option ℚ) (vo : Option VrtOptions)
        (pp : Option (List ℚ → List ℚ → List ℚ × List ℚ)) (ccrs : Nat)
        (vals : List ℚ),
      point C ds coords ix false nd true vo pp ccrs ≠ .ok vals)
    ∧ unscaleArr 2 (-10) [[[5]]] = [[[0]]]
    ∧ (5 : ℚ) * 2 + (-10) = 0 := by
  refine ⟨?_, ?_, ?_, ?_, by norm_num⟩
  · intro C ds h w ix win fbm nd vo
    rfl
  · intro C ds coords ix nd vo ccrs
    unfold point
    dsimp only
    by_cases hb : ¬(ds.bounds.left < (C.transform_coords ccrs ds.crs coords).1
        ∧ (C.transform_coords ccrs ds.crs coords).1 < ds.bounds.right
        ∧ ds.bounds.bottom < (C.transform_coords ccrs ds.crs coords).2
        ∧ (C.transform_coords ccrs ds.crs coords).2 < ds.bounds.top)
    · rw [if_pos hb, if_pos hb]
      rfl
    · rw [if_neg hb, if_neg hb]
      rfl
  · intro C ds coords ix nd vo pp ccrs vals
    unfold point
    dsimp only
    by_cases hb : ¬(ds.bounds.left < (C.transform_coords ccrs ds.crs coords).1
        ∧ (C.transform_coords ccrs ds.crs coords).1 < ds.bounds.right
        ∧ ds.bounds.bottom < (C.transform_coords ccrs ds.crs coords).2
        ∧ (C.transform_coords ccrs ds.crs coords).2 < ds.bounds.top)
    · rw [if_pos hb]
      exact fun hcontra => Except.noConfusion hcontra
    · rw [if_neg hb]
      exact fun hcontra => Except.noConfusion hcontra
  · norm_num [unscaleArr]

/-- Witness for C7 (amended): the never-returns conjunct applied at a
concrete in-bounds unmasked unscaled call. -/
theorem C7_unscale_spec_witness :
    point constCollab tinyDS (5, 5) none false none true none none ≠ .ok [0] :=
  (C7_unscale_spec).2.2.1 constCollab tinyDS (5, 5) none none none none 4326 [0]

/-- C8 counterexample: the post-process hook runs after binarization and
its mask is returned verbatim, so with `force_binary_mask` on the returned
mask can hold a value (here 7) that is neither 0 nor 255. -/
theorem C8_binary_mask_counterexample :
    (read constCollab tinyDS none none none none true none false none
        (some (fun d _ => (d, [[7]])))).2 = [[7]]
    ∧ ¬((7 : ℚ) = 0 ∨ (7 : ℚ) = 255) :=
  ⟨rfl, by norm_num⟩

/-- C8 (amended): with `force_binary_mask` enabled and no post-process
hook, every element of the mask returned by `read` — and hence by `part`
(on success) and `preview`, which delegate to it — is exactly 0 or 255
(nonzero ↦ 255, zero ↦ 0); a post-process hook may replace the mask
arbitrarily. -/
theorem C8_binary_mask_spec :
    (∀ (C : Collab) (ds : Dataset) (h w : Option Nat) (ix : Option (List Nat))
        (win : Option Window) (nd : Option ℚ) (us : Bool) (vo : Option VrtOptions),
      ∀ row ∈ (read C ds h w ix win true nd us vo none).2, ∀ v ∈ row, v = 0 ∨ v = 255)
    ∧ (∀ (C : Collab) (ds : Dataset) (b : BBox) (h w : Option Nat) (pad : Nat)
        (dcrs bcrs : Option Nat) (mo : Option ℚ) (vo : Option VrtOptions)
        (msz : Option Nat) (ix : Option (List Nat)) (nd : Option ℚ) (us : Bool)
        (res : DataArr × MaskArr),
      part C ds b h w pad dcrs bcrs mo vo msz ix true nd us none = .ok res →
      ∀ row ∈ res.2, ∀ v ∈ row, v = 0 ∨ v = 255)
    ∧ (∀ (C : Collab) (ds : Dataset) (msz : Nat) (h w : Option Nat)
        (ix : Option (List Nat)) (nd : Option ℚ) (us : Bool) (vo : Option VrtOptions),
      ∀ row ∈ (preview C ds msz h w ix true nd us vo none).2, ∀ v ∈ row, v = 0 ∨ v = 255) := by
  refine ⟨?_, ?_, ?_⟩
  · intro C ds h w ix win nd us vo
    exact read_mask_binary C ds h w ix win nd us vo
  · intro C ds b h w pad dcrs bcrs mo vo msz ix nd us res hres
    unfold part at hres
    dsimp only at hres
    split at hres
    · exact absurd hres (by simp)
    · have hres' := Except.ok.inj hres
      subst hres'
      unfold partBody
      dsimp only
      exact read_mask_binary _ _ _ _ _ _ _ _ _
  · intro C ds msz h w ix nd us vo
    unfold preview
    dsimp only
    exact read_mask_binary _ _ _ _ _ _ _ _ _

/-- Witness for C8 (amended) via the `part` conjunct at a concrete input:
the full-coverage mask of `constCollab` binarizes to 255. -/
theorem C8_binary_mask_spec_witness :
    (255 : ℚ) = 0 ∨ (255 : ℚ) = 255 :=
  (C8_binary_mask_spec).2.1 constCollab tinyDS ⟨0, 0, 10, 10⟩ none none 0 none none
    none none none none none false
    (partBody constCollab tinyDS ⟨0, 0, 10, 10⟩ none none 0 tinyDS.crs none none none
      true none false none)
    rfl [255, 255, 255, 255, 255, 255, 255, 255] (by decide) 255 (by decide)

/-- C9 counterexample: requested bounds of zero width (degenerate after the
CRS transformation applied by the collaborator) make the cover-ratio
denominator zero, and with a truthy `minimum_overlap` the overlap validator
raises an unguarded ZeroDivisionError rather than completing. -/
theorem C9_part_zero_area_counterexample :
    part constCollab tinyDS ⟨0, 0, 0, 10⟩ none none 0 none (some 9999) (some (1/2))
        none none none true none false none = .error .zeroDivision := by
  unfold part overlapCheck
  simp only [constCollab]
  rw [if_neg (show ¬(1/2 : ℚ) = 0 by norm_num)]
  rw [if_pos (show boundsDen ⟨0, 0, 0, 10⟩ = 0 by norm_num [boundsDen])]

/-- C9 (amended): with a truthy `minimum_overlap`, the overlap validator
completes without a division crash whenever the (possibly inverted)
requested bounds have NONZERO signed area — inverted axes are tolerated —
but when the bounds' signed area is exactly zero the cover-ratio division
raises an unguarded ZeroDivisionError. -/
theorem C9_part_degenerate_spec (C : Collab) (ds : Dataset) (b : BBox)
    (h w : Option Nat) (pad : Nat) (dcrs : Option Nat) (m : ℚ)
    (vo : Option VrtOptions) (msz : Option Nat) (ix : Option (List Nat))
    (fbm : Bool) (nd : Option ℚ) (us : Bool)
    (pp : Option (DataArr → MaskArr → DataArr × MaskArr)) (hm : m ≠ 0) :
    (boundsDen b ≠ 0 →
      part C ds b h w pad dcrs none (some m) vo msz ix fbm nd us pp ≠
        .error .zeroDivision)
    ∧ (boundsDen b = 0 →
      part C ds b h w pad dcrs none (some m) vo msz ix fbm nd us pp =
        .error .zeroDivision) := by
  constructor
  · intro hd
    unfold part
    dsimp only
    rw [overlapCheck_some_eq C ds (dcrs.getD ds.crs) b m hd]
    by_cases hc : coverFrac (C.transform_bounds ds.crs (dcrs.getD ds.crs) ds.bounds) b < m
    · rw [if_pos hc]
      simp
    · rw [if_neg hc]
      simp
  · intro hd
    unfold part overlapCheck
    dsimp only
    rw [if_neg hm, if_pos hd]

/-- Witness for C9 (amended) at a concrete zero-area input. -/
theorem C9_part_degenerate_spec_witness :
    (1/2 : ℚ) ≠ 0
    ∧ part constCollab tinyDS ⟨0, 0, 0, 10⟩ none none 0 none none (some (1/2))
        none none none true none false none = .error .zeroDivision :=
  ⟨by norm_num,
   (C9_part_degenerate_spec constCollab tinyDS ⟨0, 0, 0, 10⟩ none none 0 none (1/2)
     none none none true none false none (by norm_num)).2 (by norm_num [boundsDen])⟩

/-- C10: with exactly one of height/width supplied, `read` computes no
output shape, so the data comes back at the window's native resolution; and
`preview` with only a width skips its max_size branch entirely and returns
the full dataset at native resolution (data and mask shaped to the
dataset's own height × width). -/
theorem C10_single_dim_native :
    (∀ (n hgt : Nat), outShape n (some hgt) none = none ∧ outShape n none (some hgt) = none)
    ∧ (∀ (C : Collab) (ds : Dataset) (hgt : Nat) (ix : Option (List Nat)) (win : Window)
        (fbm : Bool) (nd : Option ℚ) (us : Bool) (vo : Option VrtOptions),
      hasShape (read C ds (some hgt) none ix (some win) fbm nd us vo none).1
        win.height win.width
      ∧ hasShape (read C ds none (some hgt) ix (some win) fbm nd us vo none).1
        win.height win.width)
    ∧ (∀ (sh sw msz wdt : Nat), wdt ≠ 0 →
      previewDims sh sw msz none (some wdt) = (none, some wdt))
    ∧ (∀ (C : Collab) (ds : Dataset) (msz wdt : Nat) (ix : Option (List Nat))
        (fbm : Bool) (nd : Option ℚ) (us : Bool), wdt ≠ 0 →
      hasShape (preview C ds msz none (some wdt) ix fbm nd us none none).1
        ds.height ds.width
      ∧ hasShape2 (preview C ds msz none (some wdt) ix fbm nd us none none).2
        ds.height ds.width) := by
  refine ⟨?_, ?_, ?_, ?_⟩
  · intro n hgt
    refine ⟨?_, rfl⟩
    simp [outShape, optTruthy]
  · intro C ds hgt ix win fbm nd us vo
    constructor
    · have h1 := (read_shape_none C ds (some hgt) none ix (some win) fbm nd us vo
        (by simp [optTruthy])).1
      simpa [nativeRows, nativeCols] using h1
    · have h1 := (read_shape_none C ds none (some hgt) ix (some win) fbm nd us vo
        (by simp [optTruthy])).1
      simpa [nativeRows, nativeCols] using h1
  · intro sh sw msz wdt hwd
    exact previewDims_skip sh sw msz wdt hwd
  · intro C ds msz wdt ix fbm nd us hwd
    unfold preview
    dsimp only
    rw [previewDims_skip ds.height ds.width msz wdt hwd]
    dsimp only
    have h2 := read_shape_none C ds none (some wdt) ix none fbm nd us none
      (by simp [optTruthy])
    have hgn := buildVrtParams_geo_none ds.nodata nd (has_alpha_band ds)
    constructor
    · simpa [nativeRows, nativeCols, openVrt, hgn.1, hgn.2] using h2.1
    · simpa [nativeRows, nativeCols, openVrt, hgn.1, hgn.2] using h2.2

/-- Witness for C10 via the preview conjunct at a concrete input: only a
width of 5 supplied, so `preview` returns the full 2×3 dataset at native
resolution. -/
theorem C10_single_dim_native_witness :
    (5 : Nat) ≠ 0
    ∧ hasShape (preview constCollab tinyDS 99 none (some 5) none true none false
        none none).1 tinyDS.height tinyDS.width :=
  ⟨by decide,
   ((C10_single_dim_native).2.2.2 constCollab tinyDS 99 5 none true none false
     (by decide)).1⟩

end RioTiler
